import Mathlib

/-!
Verification of the WATERVERSE Data-Model-FAIRness-Evaluator validation core
(`src/app.py`): `validate_location_format`, `check_location_in_json`,
`validate_context_format`, `check_context_in_json` and `validate_json_data`.

The Python functions operate on values produced by `json.load`; we embed those
values as the inductive type `Json` below (JSON numbers as rationals; Python
`True`/`False` kept as a separate constructor, but — as in Python, where `bool`
is a subtype of `int` — comparing numerically as 1/0).  Python runtime errors
(`TypeError`, `AttributeError`, `KeyError`, ...) are modelled with
`Except String`: `.error e` means the Python call raises, `.ok (b, m)` means it
returns the verdict pair `(b, m)`.
-/

set_option autoImplicit false

/-- Parsed JSON value, as produced by Python's `json.load`.  An object is an
association list of key/value pairs; `json.load` never produces duplicate keys
(later duplicates overwrite earlier ones), so object values are assumed
duplicate-free. -/
inductive Json where
  | null
  | bool (b : Bool)
  | num (q : Rat)
  | str (s : String)
  | arr (elems : List Json)
  | obj (entries : List (String × Json))

/-- Result of a Python call that normally returns a `(valid, message)` verdict:
`.error e` models an uncaught Python exception `e`. -/
abbrev PyResult := Except String (Bool × String)

mutual

/-- Python `==` on JSON values: numeric values compare by value (`True`/`False`
count as `1`/`0`, as Python's `bool` is an `int` subtype), strings by content,
lists element-wise, dicts by key set and per-key values; values of different
non-numeric kinds are unequal (Python `==` between builtin types never
raises). -/
def pyEq : Json → Json → Bool
  | .null, .null => true
  | .bool a, .bool b => decide (a = b)
  | .bool a, .num q => decide ((if a then (1 : Rat) else 0) = q)
  | .num q, .bool b => decide (q = (if b then (1 : Rat) else 0))
  | .num a, .num b => decide (a = b)
  | .str a, .str b => decide (a = b)
  | .arr xs, .arr ys => pyEqList xs ys
  | .obj xs, .obj ys => decide (xs.length = ys.length) && pyEqFields xs ys
  | _, _ => false

/-- Element-wise Python `==` on two lists. -/
def pyEqList : List Json → List Json → Bool
  | [], [] => true
  | x :: xs, y :: ys => pyEq x y && pyEqList xs ys
  | _, _ => false

/-- Every field of the first dict is present in the second with a `==`-equal
value (with equal sizes and duplicate-free keys this is Python dict
equality). -/
def pyEqFields : List (String × Json) → List (String × Json) → Bool
  | [], _ => true
  | (k, v) :: rest, ys =>
    (match ys.find? (fun kv => kv.1 == k) with
     | some kv => pyEq v kv.2
     | none => false) && pyEqFields rest ys

end

/-- Numeric view used by Python's comparison operators: numbers are themselves,
`True`/`False` are `1`/`0`, everything else is non-numeric. -/
def pyAsNum : Json → Option Rat
  | .num q => some q
  | .bool b => some (if b then 1 else 0)
  | _ => none

/-- Python `len(v)`: length of a list, character count of a string, key count
of a dict; raises `TypeError` otherwise. -/
def pyLen : Json → Except String Nat
  | .arr xs => .ok xs.length
  | .str s => .ok s.data.length
  | .obj kvs => .ok kvs.length
  | _ => .error "TypeError: object of this type has no len()"

/-- Python iteration (`for x in v`, tuple unpacking, ...): a list yields its
elements, a string its one-character substrings, a dict its keys; other values
are not iterable. -/
def pyIter : Json → Except String (List Json)
  | .arr xs => .ok xs
  | .str s => .ok (s.data.map (fun c => Json.str (String.mk [c])))
  | .obj kvs => .ok (kvs.map (fun kv => Json.str kv.1))
  | _ => .error "TypeError: object is not iterable"

/-- Python two-element unpacking `a, b = v`. -/
def pyUnpack2 (v : Json) : Except String (Json × Json) :=
  match pyIter v with
  | .error e => .error e
  | .ok [x, y] => .ok (x, y)
  | .ok _ => .error "ValueError: unpacking expected exactly 2 values"

/-- Python `v[0]`. -/
def pyIndex0 : Json → Except String Json
  | .arr (x :: _) => .ok x
  | .arr [] => .error "IndexError: list index out of range"
  | .str s =>
    match s.data with
    | c :: _ => .ok (.str (String.mk [c]))
    | [] => .error "IndexError: string index out of range"
  | .obj _ => .error "KeyError: 0"
  | _ => .error "TypeError: object is not subscriptable"

/-- Python `v[-1]`. -/
def pyIndexLast : Json → Except String Json
  | .arr xs =>
    match xs.getLast? with
    | some x => .ok x
    | none => .error "IndexError: list index out of range"
  | .str s =>
    match s.data.getLast? with
    | some c => .ok (.str (String.mk [c]))
    | none => .error "IndexError: string index out of range"
  | .obj _ => .error "KeyError: -1"
  | _ => .error "TypeError: object is not subscriptable"

/-- Character-list version of `String.startsWith`. -/
def charsStartWith : List Char → List Char → Bool
  | [], _ => true
  | _ :: _, [] => false
  | c :: cs, d :: ds => c == d && charsStartWith cs ds

/-- Python `s.startswith(pre)`. -/
def strStartsWith (s pre : String) : Bool :=
  charsStartWith pre.data s.data

/-- Helper for Python's substring test: does `sub` occur in the character
list? -/
def charsContain (sub : List Char) : List Char → Bool
  | [] => sub.isEmpty
  | c :: cs => charsStartWith sub (c :: cs) || charsContain sub cs

/-- Python `sub in s` on strings: substring containment. -/
def strContainsSub (s sub : String) : Bool :=
  charsContain sub.data s.data

/-- Python `key in container` for a string key: key membership for a dict,
`==`-membership for a list, substring test for a string; raises `TypeError` on
non-container values (`None`, booleans, numbers). -/
def pyContains (container : Json) (key : String) : Except String Bool :=
  match container with
  | .obj kvs => .ok (kvs.any (fun kv => kv.1 == key))
  | .arr xs => .ok (xs.any (fun x => pyEq (.str key) x))
  | .str s => .ok (strContainsSub s key)
  | _ => .error "TypeError: argument of type is not iterable"

/-- Python `container[key]` for a string key: dict lookup (first matching
entry; entries are duplicate-free), `KeyError` when absent; indexing a list or
string with a string, or subscripting a scalar, raises `TypeError`. -/
def pyLookup (container : Json) (key : String) : Except String Json :=
  match container with
  | .obj kvs =>
    match kvs.find? (fun kv => kv.1 == key) with
    | some kv => .ok kv.2
    | none => .error "KeyError"
  | .arr _ => .error "TypeError: list indices must be integers or slices, not str"
  | .str _ => .error "TypeError: string indices must be integers"
  | _ => .error "TypeError: object is not subscriptable"

/-- Value of `key` in an association list, if present (first matching entry).
Used to state which part of a document the validators read. -/
def lookupKey (kvs : List (String × Json)) (key : String) : Option Json :=
  (kvs.find? (fun kv => kv.1 == key)).map (fun kv => kv.2)

/-- Is the value a JSON list? (Python `isinstance(v, list)`.) -/
def isList : Json → Bool
  | .arr _ => true
  | _ => false

/-- Is the value a JSON number? (Python `int`/`float`, not `bool`.) -/
def isNum : Json → Bool
  | .num _ => true
  | _ => false

/-- Python chained comparison `lo <= v <= hi` against number literals: raises
`TypeError` when `v` is not numeric, otherwise evaluates the bound check. -/
def pyNumCheck (v : Json) (lo hi : Rat) : Except String Bool :=
  match pyAsNum v with
  | some q => .ok (decide (lo ≤ q) && decide (q ≤ hi))
  | none => .error "TypeError: '<=' not supported between these types"

/-- Python `-180 <= longitude <= 180 and latLo <= latitude <= latHi`: the `and`
short-circuits, so the latitude operand is only evaluated (and can only raise)
when the longitude check succeeded and held. -/
def pyPairInRange (longitude latitude : Json) (latLo latHi : Rat) :
    Except String Bool :=
  match pyNumCheck longitude (-180) 180 with
  | .error e => .error e
  | .ok b => if b then pyNumCheck latitude latLo latHi else .ok false

/-- Rendering of a rational for the f-string interpolation in the invalid-type
message (Python prints ints as `200` and floats as `200.0`; the distinction is
not represented here and no theorem depends on this string). -/
def ratToStr (q : Rat) : String :=
  if q.den = 1 then toString q.num else toString q.num ++ "/" ++ toString q.den

/-- Python `str()` of the values that can reach the invalid-type f-string
(hashable values only: unhashable lists/dicts raise in the set-membership test
before the message is built, so those cases are unreachable there). -/
def pyToStr : Json → String
  | .null => "None"
  | .bool true => "True"
  | .bool false => "False"
  | .num q => ratToStr q
  | .str s => s
  | .arr _ => "<unreachable>"
  | .obj _ => "<unreachable>"

/-- Python `location_type not in {"Point", "Polygon", "LineString"}` (negated):
set membership by hash/equality; an unhashable value (list, dict) raises
`TypeError`. -/
def pyInAllowedTypes : Json → Except String Bool
  | .arr _ => .error "TypeError: unhashable type: 'list'"
  | .obj _ => .error "TypeError: unhashable type: 'dict'"
  | .str s => .ok (s == "Point" || s == "Polygon" || s == "LineString")
  | _ => .ok false

/-- Message of line 26 of `src/app.py`:
`f"Invalid type: {location_type}. Allowed types are: {allowed_types}."`.
CPython renders the set in a hash-seed-dependent order; one representative
order is fixed here.  No theorem depends on this string. -/
def invalidTypeMsg (location_type : Json) : String :=
  "Invalid type: " ++ pyToStr location_type ++
    ". Allowed types are: \x7b'Point', 'Polygon', 'LineString'\x7d."

/-- Body of the `if location_type == "Point"` branch of
`validate_location_format` (lines 31–36 of `src/app.py`); the shared
`return True, "Location format is valid."` of line 65 is inlined at the end. -/
def validatePoint (coordinates : Json) : PyResult :=
  match pyLen coordinates with
  | .error e => .error e
  | .ok n =>
    if n ≠ 2 then
      .ok (false, "Point coordinates must contain exactly two elements (longitude, latitude).")
    else
      match pyUnpack2 coordinates with
      | .error e => .error e
      | .ok (longitude, latitude) =>
        match pyPairInRange longitude latitude (-90) 90 with
        | .error e => .error e
        | .ok inRange =>
          if !inRange then
            .ok (false, "Invalid coordinates for 'Point'. Longitude must be in [-180, 180] and latitude in [-90, 90].")
          else
            .ok (true, "Location format is valid.")

/-- Body of the `for point in coordinates` loop of the LineString branch
(lines 42–47 of `src/app.py`), for one point. -/
def lineStringPointStep (point : Json) : Except String (Option (Bool × String)) :=
  match pyLen point with
  | .error e => .error e
  | .ok m =>
    if m ≠ 2 then
      .ok (some (false, "Each point in LineString must have exactly two elements (longitude, latitude)."))
    else
      match pyUnpack2 point with
      | .error e => .error e
      | .ok (longitude, latitude) =>
        match pyPairInRange longitude latitude (-90) 90 with
        | .error e => .error e
        | .ok inRange =>
          if !inRange then
            .ok (some (false, "Invalid point in LineString. Longitude must be in [-180, 180] and latitude in [-90, 90]."))
          else
            .ok none

/-- The `for point in coordinates` loop of the LineString branch: `some v`
means the loop returned the failure verdict `v`, `none` means it ran to
completion. -/
def checkLineStringPoints : List Json → Except String (Option (Bool × String))
  | [] => .ok none
  | point :: rest =>
    match lineStringPointStep point with
    | .error e => .error e
    | .ok (some v) => .ok (some v)
    | .ok none => checkLineStringPoints rest

/-- Body of the `elif location_type == "LineString"` branch of
`validate_location_format` (lines 39–47 of `src/app.py`), success return
inlined. -/
def validateLineString (coordinates : Json) : PyResult :=
  match pyLen coordinates with
  | .error e => .error e
  | .ok n =>
    if n < 2 then
      .ok (false, "LineString must have at least two points (each point is a pair of coordinates).")
    else
      match pyIter coordinates with
      | .error e => .error e
      | .ok points =>
        match checkLineStringPoints points with
        | .error e => .error e
        | .ok (some v) => .ok v
        | .ok none => .ok (true, "Location format is valid.")

/-- Body of the inner `for point in ring` loop of the Polygon branch
(lines 58–63 of `src/app.py`), for one point.  Note the latitude bound is
`[-180, 180]` in the condition of line 62, unlike Point/LineString. -/
def polygonPointStep (point : Json) : Except String (Option (Bool × String)) :=
  match pyLen point with
  | .error e => .error e
  | .ok m =>
    if m ≠ 2 then
      .ok (some (false, "Each point in a Polygon ring must have exactly two elements (longitude, latitude)."))
    else
      match pyUnpack2 point with
      | .error e => .error e
      | .ok (longitude, latitude) =>
        match pyPairInRange longitude latitude (-180) 180 with
        | .error e => .error e
        | .ok inRange =>
          if !inRange then
            .ok (some (false, "Invalid point in Polygon. Longitude must be in [-180, 180] and latitude in [-90, 90]."))
          else
            .ok none

/-- The inner `for point in ring` loop of the Polygon branch. -/
def checkPolygonRingPoints : List Json → Except String (Option (Bool × String))
  | [] => .ok none
  | point :: rest =>
    match polygonPointStep point with
    | .error e => .error e
    | .ok (some v) => .ok (some v)
    | .ok none => checkPolygonRingPoints rest

/-- Body of the outer `for ring in coordinates` loop of the Polygon branch
(lines 53–63 of `src/app.py`), for one ring: length check, closure check
(`ring[0] != ring[-1]`, Python `==` i.e. `pyEq`), then the point loop. -/
def polygonRingStep (ring : Json) : Except String (Option (Bool × String)) :=
  match pyLen ring with
  | .error e => .error e
  | .ok n =>
    if n < 4 then
      .ok (some (false, "Each linear ring in Polygon must have at least four points (coordinate pairs)."))
    else
      match pyIndex0 ring with
      | .error e => .error e
      | .ok firstPoint =>
        match pyIndexLast ring with
        | .error e => .error e
        | .ok lastPoint =>
          if !pyEq firstPoint lastPoint then
            .ok (some (false, "The first and last point in each linear ring must be the same to close the Polygon."))
          else
            match pyIter ring with
            | .error e => .error e
            | .ok points => checkPolygonRingPoints points

/-- The outer `for ring in coordinates` loop of the Polygon branch. -/
def checkPolygonRings : List Json → Except String (Option (Bool × String))
  | [] => .ok none
  | ring :: rest =>
    match polygonRingStep ring with
    | .error e => .error e
    | .ok (some v) => .ok (some v)
    | .ok none => checkPolygonRings rest

/-- Body of the `elif location_type == "Polygon"` branch of
`validate_location_format` (lines 50–63 of `src/app.py`), success return
inlined. -/
def validatePolygon (coordinates : Json) : PyResult :=
  match pyLen coordinates with
  | .error e => .error e
  | .ok n =>
    if n < 1 then
      .ok (false, "Polygon must have at least one linear ring (an array of arrays of coordinates).")
    else
      match pyIter coordinates with
      | .error e => .error e
      | .ok rings =>
        match checkPolygonRings rings with
        | .error e => .error e
        | .ok (some v) => .ok v
        | .ok none => .ok (true, "Location format is valid.")

/-- Translation of `validate_location_format` (lines 12–65 of `src/app.py`). -/
def validate_location_format (location : Json) : PyResult :=
  match pyContains location "type" with
  | .error e => .error e
  | .ok hasType =>
    if !hasType then .ok (false, "Missing 'type' or 'coordinates' in location.")
    else
      match pyContains location "coordinates" with
      | .error e => .error e
      | .ok hasCoordinates =>
        if !hasCoordinates then .ok (false, "Missing 'type' or 'coordinates' in location.")
        else
          match pyLookup location "type" with
          | .error e => .error e
          | .ok location_type =>
            match pyInAllowedTypes location_type with
            | .error e => .error e
            | .ok isAllowed =>
              if !isAllowed then .ok (false, invalidTypeMsg location_type)
              else
                match pyLookup location "coordinates" with
                | .error e => .error e
                | .ok coordinates =>
                  if pyEq location_type (.str "Point") then
                    validatePoint coordinates
                  else if pyEq location_type (.str "LineString") then
                    validateLineString coordinates
                  else if pyEq location_type (.str "Polygon") then
                    validatePolygon coordinates
                  else
                    .ok (true, "Location format is valid.")

/-- Translation of `check_location_in_json` (lines 68–79 of `src/app.py`). -/
def check_location_in_json (json_data : Json) : PyResult :=
  match pyContains json_data "location" with
  | .error e => .error e
  | .ok present =>
    if !present then .ok (false, "The 'location' attribute is missing.")
    else
      match pyLookup json_data "location" with
      | .error e => .error e
      | .ok location => validate_location_format location

/-- Expected `@context` URL prefix of line 92 of `src/app.py`. -/
def expectedUrlStart : String :=
  "https://raw.githubusercontent.com/smart-data-models/"

/-- Translation of `validate_context_format` (lines 82–96 of `src/app.py`).
Line 86 (`not isinstance(context, list) or len(context) == 0`) short-circuits,
so `len` is only taken of an actual list. -/
def validate_context_format (context : Json) : PyResult :=
  match context with
  | .arr [] => .ok (false, "The '@context' attribute should be a non-empty list")
  | .arr (context_url :: _) =>
    match context_url with
    | .str s =>
      if !strStartsWith s expectedUrlStart then .ok (false, "Invalid @context URL.")
      else .ok (true, "Context format is valid.")
    | _ => .error "AttributeError: object has no attribute 'startswith'"
  | _ => .ok (false, "The '@context' attribute should be a non-empty list")

/-- Translation of `check_context_in_json` (lines 99–109 of `src/app.py`). -/
def check_context_in_json (json_data : Json) : PyResult :=
  match pyContains json_data "@context" with
  | .error e => .error e
  | .ok present =>
    if !present then .ok (false, "The '@context' attribute is missing.")
    else
      match pyLookup json_data "@context" with
      | .error e => .error e
      | .ok context => validate_context_format context

/-- The `validation_functions` list of lines 117–121 of `src/app.py`. -/
def validation_functions : List (Json → PyResult) :=
  [check_location_in_json, check_context_in_json]

/-- The `for validate_func in validation_functions` loop of lines 124–129 of
`src/app.py`: stop at the first validation failure, otherwise fall through to
the overall success verdict. -/
def runChecks : List (Json → PyResult) → Json → PyResult
  | [], _ => .ok (true, "Data model is valid.")
  | f :: fs, json_data =>
    match f json_data with
    | .error e => .error e
    | .ok (is_valid, message) =>
      if !is_valid then .ok (false, message)
      else runChecks fs json_data

/-- Translation of `validate_json_data` (lines 112–129 of `src/app.py`). -/
def validate_json_data (json_data : Json) : PyResult :=
  runChecks validation_functions json_data

/-- Canonical Point geometry document: `{"type": "Point", "coordinates": c}`. -/
def pointGeom (c : Json) : Json :=
  .obj [("type", .str "Point"), ("coordinates", c)]

/-- Canonical LineString geometry document. -/
def lineStringGeom (c : Json) : Json :=
  .obj [("type", .str "LineString"), ("coordinates", c)]

/-- Canonical Polygon geometry document. -/
def polygonGeom (c : Json) : Json :=
  .obj [("type", .str "Polygon"), ("coordinates", c)]

/-- A Point geometry that `validate_location_format` accepts; used as a
concrete valid `location` value. -/
def goodPointGeom : Json := pointGeom (.arr [.num 10, .num 20])

/-- Declarative description (following the spec's Polygon point rule, with the
source's `[-180, 180]` latitude bound of line 62) of the ring points the code
accepts: a two-element sequence of numeric values within bounds. -/
def PolyPointOk (p : Json) : Prop :=
  ∃ a b qa qb, p = .arr [a, b] ∧ pyAsNum a = some qa ∧ pyAsNum b = some qb ∧
    -180 ≤ qa ∧ qa ≤ 180 ∧ -180 ≤ qb ∧ qb ≤ 180

/-- Declarative description, following the spec's words, of the linear rings
the code accepts: a sequence of at least four points whose first and last
points are `==`-equal and whose points all satisfy `PolyPointOk`. -/
def PolyRingOk (r : Json) : Prop :=
  ∃ pts : List Json, r = .arr pts ∧ 4 ≤ pts.length ∧
    (∃ p0 pl, pts.head? = some p0 ∧ pts.getLast? = some pl ∧ pyEq p0 pl = true) ∧
    ∀ p ∈ pts, PolyPointOk p

/-- Key membership used by `pyContains` on a dict agrees with `lookupKey`
presence. -/
theorem any_key_eq_lookupKey_isSome (kvs : List (String × Json)) (k : String) :
    kvs.any (fun kv => kv.1 == k) = (lookupKey kvs k).isSome := by
  induction kvs with
  | nil => rfl
  | cons kv rest ih =>
    simp only [List.any_cons, lookupKey, List.find?]
    cases h : (kv.1 == k) with
    | true => simp [h]
    | false => simpa [h, lookupKey] using ih

/-- The `location` field-check on a document object reads exactly the
`location` entry. -/
theorem check_location_in_json_obj (kvs : List (String × Json)) :
    check_location_in_json (.obj kvs) =
      match lookupKey kvs "location" with
      | some v => validate_location_format v
      | none => .ok (false, "The 'location' attribute is missing.") := by
  unfold check_location_in_json
  simp only [pyContains, any_key_eq_lookupKey_isSome, pyLookup]
  cases hfind : kvs.find? (fun kv => kv.1 == "location") with
  | none => simp [lookupKey, hfind]
  | some kv => simp [lookupKey, hfind]

/-- The `@context` field-check on a document object reads exactly the
`@context` entry. -/
theorem check_context_in_json_obj (kvs : List (String × Json)) :
    check_context_in_json (.obj kvs) =
      match lookupKey kvs "@context" with
      | some v => validate_context_format v
      | none => .ok (false, "The '@context' attribute is missing.") := by
  unfold check_context_in_json
  simp only [pyContains, any_key_eq_lookupKey_isSome, pyLookup]
  cases hfind : kvs.find? (fun kv => kv.1 == "@context") with
  | none => simp [lookupKey, hfind]
  | some kv => simp [lookupKey, hfind]

/-- C1: `validate_json_data` applies its field-checks in the fixed order
[`location`, `@context`], returns the first failing field-check's verdict
unmodified (so when both would fail, the `location` failure message is
reported), and returns exactly `(true, "Data model is valid.")` when every
field-check passes. -/
theorem validate_json_data_first_failure (d : Json) :
    validation_functions = [check_location_in_json, check_context_in_json] ∧
    (∀ m, check_location_in_json d = .ok (false, m) →
        validate_json_data d = .ok (false, m)) ∧
    (∀ m m2, check_location_in_json d = .ok (false, m) →
        check_context_in_json d = .ok (false, m2) →
        validate_json_data d = .ok (false, m)) ∧
    (∀ m m2, check_location_in_json d = .ok (true, m) →
        check_context_in_json d = .ok (false, m2) →
        validate_json_data d = .ok (false, m2)) ∧
    (∀ m m2, check_location_in_json d = .ok (true, m) →
        check_context_in_json d = .ok (true, m2) →
        validate_json_data d = .ok (true, "Data model is valid.")) := by
  refine ⟨rfl, ?_, ?_, ?_, ?_⟩
  · intro m h
    simp [validate_json_data, validation_functions, runChecks, h]
  · intro m m2 h _
    simp [validate_json_data, validation_functions, runChecks, h]
  · intro m m2 h h2
    simp [validate_json_data, validation_functions, runChecks, h, h2]
  · intro m m2 h h2
    simp [validate_json_data, validation_functions, runChecks, h, h2]

/-- Witness for C1: on the empty document both field-checks fail and the
reported verdict is the `location` failure. -/
theorem validate_json_data_first_failure_witness :
    validate_json_data (Json.obj []) =
      .ok (false, "The 'location' attribute is missing.") :=
  (validate_json_data_first_failure (Json.obj [])).2.2.1
    "The 'location' attribute is missing."
    "The '@context' attribute is missing." rfl rfl

/-- C2: contrary to the spec's error-handling requirement, the core faults on
malformed shapes instead of returning a verdict: a non-mapping root document
raises `TypeError` in the `"location" in json_data` test, a non-sequence
`coordinates` value raises `TypeError` in `len(coordinates)`, and a `@context`
list whose first element is not a string raises `AttributeError` in
`context_url.startswith(...)`. -/
theorem core_faults_on_malformed_shapes :
    validate_json_data (.num 5) =
      .error "TypeError: argument of type is not iterable" ∧
    validate_json_data
        (.obj [("location", .obj [("type", .str "Point"), ("coordinates", .num 5)])]) =
      .error "TypeError: object of this type has no len()" ∧
    check_context_in_json (.obj [("@context", .arr [.num 3])]) =
      .error "AttributeError: object has no attribute 'startswith'" :=
  ⟨rfl, rfl, rfl⟩

/-- C7: a document object without a `location` key gets exactly the
location-missing verdict, and a document object whose `location` value passes
validation but which has no `@context` key gets exactly the context-missing
verdict. -/
theorem missing_field_messages :
    (∀ kvs : List (String × Json), lookupKey kvs "location" = none →
        validate_json_data (.obj kvs) =
          .ok (false, "The 'location' attribute is missing.")) ∧
    (∀ (kvs : List (String × Json)) (m : String),
        check_location_in_json (.obj kvs) = .ok (true, m) →
        lookupKey kvs "@context" = none →
        validate_json_data (.obj kvs) =
          .ok (false, "The '@context' attribute is missing.")) := by
  constructor
  · intro kvs h
    have hc : check_location_in_json (.obj kvs) =
        .ok (false, "The 'location' attribute is missing.") := by
      rw [check_location_in_json_obj, h]
    simp [validate_json_data, validation_functions, runChecks, hc]
  · intro kvs m hloc h
    have hc : check_context_in_json (.obj kvs) =
        .ok (false, "The '@context' attribute is missing.") := by
      rw [check_context_in_json_obj, h]
    simp [validate_json_data, validation_functions, runChecks, hloc, hc]

/-- Witness for C7: the empty document gets the location-missing verdict, and
a document carrying only a valid `location` gets the context-missing
verdict. -/
theorem missing_field_messages_witness :
    validate_json_data (Json.obj []) =
      .ok (false, "The 'location' attribute is missing.") ∧
    validate_json_data (Json.obj [("location", goodPointGeom)]) =
      .ok (false, "The '@context' attribute is missing.") :=
  ⟨missing_field_messages.1 [] rfl,
   missing_field_messages.2 [("location", goodPointGeom)]
     "Location format is valid." rfl rfl⟩

/-- C8: the validators are pure functions of their input in this embedding
(the source mutates no shared state), so repeating a call on the same input
yields an identical verdict. -/
theorem validators_deterministic (d : Json) :
    validate_json_data d = validate_json_data d ∧
    check_location_in_json d = check_location_in_json d ∧
    check_context_in_json d = check_context_in_json d :=
  ⟨rfl, rfl, rfl⟩

/-- C9: the verdict of `validate_json_data` on a document object depends only
on the presence and value of the `location` and `@context` entries. -/
theorem verdict_depends_only_on_checked_fields
    (kvs1 kvs2 : List (String × Json))
    (hloc : lookupKey kvs1 "location" = lookupKey kvs2 "location")
    (hctx : lookupKey kvs1 "@context" = lookupKey kvs2 "@context") :
    validate_json_data (.obj kvs1) = validate_json_data (.obj kvs2) := by
  have h1 : check_location_in_json (.obj kvs1) = check_location_in_json (.obj kvs2) := by
    rw [check_location_in_json_obj, check_location_in_json_obj, hloc]
  have h2 : check_context_in_json (.obj kvs1) = check_context_in_json (.obj kvs2) := by
    rw [check_context_in_json_obj, check_context_in_json_obj, hctx]
  simp only [validate_json_data, validation_functions, runChecks, h1, h2]

/-- Witness for C9: a document with an unrelated extra key validates exactly
like the empty document. -/
theorem verdict_depends_only_on_checked_fields_witness :
    validate_json_data (.obj [("other", Json.null)]) = validate_json_data (.obj []) :=
  verdict_depends_only_on_checked_fields [("other", Json.null)] [] rfl rfl

/-- C10: when the `@context` key is present but its value is not a list (for
example `null`) or is the empty list, the context field-check returns exactly
the non-empty-list failure verdict and never the missing-attribute verdict —
presence is decided by key membership alone; the same verdict is the overall
one whenever the `location` check passed. -/
theorem context_presence_by_key_membership :
    (∀ (kvs : List (String × Json)) (v : Json),
        lookupKey kvs "@context" = some v →
        (isList v = false ∨ v = .arr []) →
        check_context_in_json (.obj kvs) =
          .ok (false, "The '@context' attribute should be a non-empty list")) ∧
    (∀ (kvs : List (String × Json)) (v : Json) (m : String),
        check_location_in_json (.obj kvs) = .ok (true, m) →
        lookupKey kvs "@context" = some v →
        (isList v = false ∨ v = .arr []) →
        validate_json_data (.obj kvs) =
          .ok (false, "The '@context' attribute should be a non-empty list")) := by
  have key : ∀ (kvs : List (String × Json)) (v : Json),
      lookupKey kvs "@context" = some v →
      (isList v = false ∨ v = .arr []) →
      check_context_in_json (.obj kvs) =
        .ok (false, "The '@context' attribute should be a non-empty list") := by
    intro kvs v h hv
    rw [check_context_in_json_obj, h]
    rcases hv with hv | rfl
    · cases v <;> simp_all [isList, validate_context_format]
    · rfl
  refine ⟨key, ?_⟩
  intro kvs v m hloc h hv
  have hc := key kvs v h hv
  simp [validate_json_data, validation_functions, runChecks, hloc, hc]

/-- Witness for C10: a document with a valid `location` and `"@context": null`
gets the non-empty-list verdict, not the missing-attribute one. -/
theorem context_presence_by_key_membership_witness :
    validate_json_data (.obj [("location", goodPointGeom), ("@context", Json.null)]) =
      .ok (false, "The '@context' attribute should be a non-empty list") :=
  context_presence_by_key_membership.2 [("location", goodPointGeom), ("@context", Json.null)]
    Json.null "Location format is valid." rfl rfl (Or.inl rfl)

/-- A two-element array of rationals, the shape of a GeoJSON coordinate
pair. -/
def numPair (a b : Rat) : Json := .arr [.num a, .num b]

/-- Reaching the Point branch of `validate_location_format` through the
membership tests, type lookup and dispatch of lines 18–31. -/
theorem validate_location_format_pointGeom (c : Json) :
    validate_location_format (pointGeom c) = validatePoint c := rfl

/-- Reaching the LineString branch of `validate_location_format`. -/
theorem validate_location_format_lineStringGeom (c : Json) :
    validate_location_format (lineStringGeom c) = validateLineString c := rfl

/-- Reaching the Polygon branch of `validate_location_format`. -/
theorem validate_location_format_polygonGeom (c : Json) :
    validate_location_format (polygonGeom c) = validatePolygon c := rfl

/-- The Polygon point loop body lets a point through (no verdict, no
exception) exactly when the point is a two-element array of numeric values
within the source's `[-180, 180] × [-180, 180]` bounds. -/
theorem polygonPointStep_none_iff (p : Json) :
    polygonPointStep p = .ok none ↔ PolyPointOk p := by
  constructor
  · intro h
    unfold polygonPointStep at h
    cases p with
    | null => simp [pyLen] at h
    | bool b => simp [pyLen] at h
    | num q => simp [pyLen] at h
    | str s =>
      simp only [pyLen] at h
      split at h
      · simp at h
      · rename_i hlen
        obtain ⟨c1, c2, hs⟩ := List.length_eq_two.mp (not_ne_iff.mp hlen)
        simp [pyUnpack2, pyIter, hs, pyPairInRange, pyNumCheck, pyAsNum] at h
    | obj kvs =>
      simp only [pyLen] at h
      split at h
      · simp at h
      · rename_i hlen
        obtain ⟨kv1, kv2, hs⟩ := List.length_eq_two.mp (not_ne_iff.mp hlen)
        simp [pyUnpack2, pyIter, hs, pyPairInRange, pyNumCheck, pyAsNum] at h
    | arr xs =>
      simp only [pyLen] at h
      split at h
      · simp at h
      · rename_i hlen
        obtain ⟨a, b, hs⟩ := List.length_eq_two.mp (not_ne_iff.mp hlen)
        subst hs
        cases ha : pyAsNum a with
        | none => simp [pyUnpack2, pyIter, pyPairInRange, pyNumCheck, ha] at h
        | some qa =>
          simp only [pyUnpack2, pyIter, pyPairInRange, pyNumCheck, ha] at h
          cases hqa : (decide ((-180 : Rat) ≤ qa) && decide (qa ≤ (180 : Rat))) with
          | false => simp [hqa] at h
          | true =>
            simp only [hqa, if_true] at h
            cases hb : pyAsNum b with
            | none => simp [hb] at h
            | some qb =>
              simp only [hb] at h
              cases hqb : (decide ((-180 : Rat) ≤ qb) && decide (qb ≤ (180 : Rat))) with
              | false => simp [hqb] at h
              | true =>
                rw [← Bool.decide_and] at hqa hqb
                obtain ⟨h1, h2⟩ := of_decide_eq_true hqa
                obtain ⟨h3, h4⟩ := of_decide_eq_true hqb
                exact ⟨a, b, qa, qb, rfl, ha, hb, h1, h2, h3, h4⟩
  · rintro ⟨a, b, qa, qb, rfl, ha, hb, h1, h2, h3, h4⟩
    simp [polygonPointStep, pyLen, pyUnpack2, pyIter, pyPairInRange, pyNumCheck,
      ha, hb, decide_eq_true h1, decide_eq_true h2, decide_eq_true h3, decide_eq_true h4]

/-- Any early verdict produced by the Polygon point loop body is a failure. -/
theorem polygonPointStep_some_false {p : Json} {v : Bool × String}
    (h : polygonPointStep p = .ok (some v)) : v.1 = false := by
  unfold polygonPointStep at h
  cases hl : pyLen p with
  | error e => simp [hl] at h
  | ok n =>
    simp only [hl] at h
    split at h
    · simp only [Except.ok.injEq, Option.some.injEq] at h
      subst h
      rfl
    · cases hu : pyUnpack2 p with
      | error e => simp [hu] at h
      | ok pr =>
        obtain ⟨lon, lat⟩ := pr
        simp only [hu] at h
        cases hr : pyPairInRange lon lat (-180) 180 with
        | error e => simp [hr] at h
        | ok b =>
          simp only [hr] at h
          cases b with
          | false =>
            simp only [Bool.not_false, if_true, Except.ok.injEq, Option.some.injEq] at h
            subst h
            rfl
          | true => simp at h

/-- The Polygon point loop runs through without verdict or exception exactly
when every point is acceptable. -/
theorem checkPolygonRingPoints_none_iff (pts : List Json) :
    checkPolygonRingPoints pts = .ok none ↔ ∀ p ∈ pts, PolyPointOk p := by
  induction pts with
  | nil => simp [checkPolygonRingPoints]
  | cons p rest ih =>
    simp only [checkPolygonRingPoints]
    cases hs : polygonPointStep p with
    | error e =>
      have hnp : ¬ PolyPointOk p := fun hp => by
        rw [← polygonPointStep_none_iff] at hp
        rw [hs] at hp
        cases hp
      simp [hnp]
    | ok o =>
      cases o with
      | some v =>
        have hnp : ¬ PolyPointOk p := fun hp => by
          rw [← polygonPointStep_none_iff] at hp
          rw [hs] at hp
          cases hp
        simp [hnp]
      | none =>
        have hp : PolyPointOk p := (polygonPointStep_none_iff p).mp hs
        simp [ih, hp]

/-- Any early verdict produced by the Polygon point loop is a failure. -/
theorem checkPolygonRingPoints_some_false {pts : List Json} {v : Bool × String}
    (h : checkPolygonRingPoints pts = .ok (some v)) : v.1 = false := by
  induction pts with
  | nil => simp [checkPolygonRingPoints] at h
  | cons p rest ih =>
    simp only [checkPolygonRingPoints] at h
    cases hs : polygonPointStep p with
    | error e => rw [hs] at h; simp at h
    | ok o =>
      rw [hs] at h
      cases o with
      | some w =>
        simp only [Except.ok.injEq, Option.some.injEq] at h
        rw [← h]
        exact polygonPointStep_some_false hs
      | none => exact ih h

/-- The Polygon ring loop body lets a ring through (no verdict, no exception)
exactly when the ring is an array of at least four points whose first and last
points are `==`-equal and whose points are all acceptable. -/
theorem polygonRingStep_none_iff (r : Json) :
    polygonRingStep r = .ok none ↔ PolyRingOk r := by
  constructor
  · intro h
    unfold polygonRingStep at h
    cases r with
    | null => simp [pyLen] at h
    | bool b => simp [pyLen] at h
    | num q => simp [pyLen] at h
    | obj kvs =>
      simp only [pyLen] at h
      split at h
      · simp at h
      · simp [pyIndex0] at h
    | str s =>
      simp only [pyLen] at h
      split at h
      · simp at h
      · rename_i hlen
        cases hd : s.data with
        | nil => rw [hd] at hlen; simp at hlen
        | cons c cs =>
          simp only [pyIndex0, pyIndexLast, hd] at h
          cases hg : (c :: cs).getLast? with
          | none =>
            rw [List.getLast?_eq_none_iff] at hg
            exact (List.cons_ne_nil _ _ hg).elim
          | some cl =>
            simp only [hg] at h
            cases hc : pyEq (.str (String.mk [c])) (.str (String.mk [cl])) with
            | false => simp [hc] at h
            | true =>
              simp [hc, pyIter, hd, checkPolygonRingPoints, polygonPointStep, pyLen] at h
    | arr pts =>
      simp only [pyLen] at h
      split at h
      · simp at h
      · rename_i hlen
        have h4 : 4 ≤ pts.length := by omega
        cases pts with
        | nil => simp at h4
        | cons p0 rest =>
          simp only [pyIndex0, pyIndexLast] at h
          cases hg : (p0 :: rest).getLast? with
          | none =>
            rw [List.getLast?_eq_none_iff] at hg
            exact (List.cons_ne_nil _ _ hg).elim
          | some pl =>
            simp only [hg] at h
            cases hc : pyEq p0 pl with
            | false => simp [hc] at h
            | true =>
              simp only [hc, Bool.not_true] at h
              rw [if_neg (by simp)] at h
              simp only [pyIter] at h
              exact ⟨p0 :: rest, rfl, h4, ⟨p0, pl, rfl, hg, hc⟩,
                (checkPolygonRingPoints_none_iff _).mp h⟩
  · rintro ⟨pts, rfl, hlen, ⟨p0, pl, hh, hg, hc⟩, hpts⟩
    unfold polygonRingStep
    cases pts with
    | nil => simp at hh
    | cons q rest =>
      simp only [List.head?_cons, Option.some.injEq] at hh
      subst hh
      simp [pyLen, pyIndex0, pyIndexLast, hg, hc, pyIter,
        (checkPolygonRingPoints_none_iff (q :: rest)).mpr hpts]
      simp only [List.length_cons] at hlen
      omega

/-- Any early verdict produced by the Polygon ring loop body is a failure. -/
theorem polygonRingStep_some_false {r : Json} {v : Bool × String}
    (h : polygonRingStep r = .ok (some v)) : v.1 = false := by
  unfold polygonRingStep at h
  cases hl : pyLen r with
  | error e => simp [hl] at h
  | ok n =>
    simp only [hl] at h
    split at h
    · simp only [Except.ok.injEq, Option.some.injEq] at h
      subst h
      rfl
    · cases h0 : pyIndex0 r with
      | error e => simp [h0] at h
      | ok fp =>
        simp only [h0] at h
        cases hL : pyIndexLast r with
        | error e => simp [hL] at h
        | ok lp =>
          simp only [hL] at h
          cases hc : pyEq fp lp with
          | false =>
            simp only [hc, Bool.not_false, if_true, Except.ok.injEq,
              Option.some.injEq] at h
            subst h
            rfl
          | true =>
            simp only [hc, Bool.not_true] at h
            rw [if_neg (by simp)] at h
            cases hi : pyIter r with
            | error e => simp [hi] at h
            | ok points =>
              simp only [hi] at h
              exact checkPolygonRingPoints_some_false h

/-- The Polygon ring loop runs through without verdict or exception exactly
when every ring is acceptable. -/
theorem checkPolygonRings_none_iff (rings : List Json) :
    checkPolygonRings rings = .ok none ↔ ∀ r ∈ rings, PolyRingOk r := by
  induction rings with
  | nil => simp [checkPolygonRings]
  | cons r rest ih =>
    simp only [checkPolygonRings]
    cases hs : polygonRingStep r with
    | error e =>
      have hnr : ¬ PolyRingOk r := fun hr => by
        rw [← polygonRingStep_none_iff] at hr
        rw [hs] at hr
        cases hr
      simp [hnr]
    | ok o =>
      cases o with
      | some v =>
        have hnr : ¬ PolyRingOk r := fun hr => by
          rw [← polygonRingStep_none_iff] at hr
          rw [hs] at hr
          cases hr
        simp [hnr]
      | none =>
        have hr : PolyRingOk r := (polygonRingStep_none_iff r).mp hs
        simp [ih, hr]

/-- Any early verdict produced by the Polygon ring loop is a failure. -/
theorem checkPolygonRings_some_false {rings : List Json} {v : Bool × String}
    (h : checkPolygonRings rings = .ok (some v)) : v.1 = false := by
  induction rings with
  | nil => simp [checkPolygonRings] at h
  | cons r rest ih =>
    simp only [checkPolygonRings] at h
    cases hs : polygonRingStep r with
    | error e => rw [hs] at h; simp at h
    | ok o =>
      rw [hs] at h
      cases o with
      | some w =>
        simp only [Except.ok.injEq, Option.some.injEq] at h
        rw [← h]
        exact polygonRingStep_some_false hs
      | none => exact ih h

/-- The Polygon branch succeeds exactly on a non-empty array of acceptable
rings. -/
theorem validatePolygon_ok_iff (rings : List Json) :
    validatePolygon (.arr rings) = .ok (true, "Location format is valid.") ↔
      rings ≠ [] ∧ ∀ r ∈ rings, PolyRingOk r := by
  unfold validatePolygon
  cases rings with
  | nil => simp [pyLen]
  | cons r rest =>
    have hnl : ¬((r :: rest).length < 1) := by simp
    simp only [pyLen, hnl, if_false, pyIter]
    cases hs : checkPolygonRings (r :: rest) with
    | error e =>
      simp only [hs]
      refine iff_of_false (by simp) ?_
      rintro ⟨-, hall⟩
      have h2 := (checkPolygonRings_none_iff (r :: rest)).mpr hall
      rw [hs] at h2
      cases h2
    | ok o =>
      cases o with
      | none =>
        simp only [hs]
        exact iff_of_true trivial ⟨by simp, (checkPolygonRings_none_iff (r :: rest)).mp hs⟩
      | some v =>
        simp only [hs]
        refine iff_of_false ?_ ?_
        · intro h
          have hv := checkPolygonRings_some_false hs
          simp only [Except.ok.injEq] at h
          rw [h] at hv
          cases hv
        · rintro ⟨-, hall⟩
          have h2 := (checkPolygonRings_none_iff (r :: rest)).mpr hall
          rw [hs] at h2
          cases h2

/-- The Point branch succeeds exactly on a two-element array of numeric values
within `[-180, 180] × [-90, 90]`. -/
theorem validatePoint_ok_iff (c : Json) :
    validatePoint c = .ok (true, "Location format is valid.") ↔
      ∃ a b qa qb, c = .arr [a, b] ∧ pyAsNum a = some qa ∧ pyAsNum b = some qb ∧
        -180 ≤ qa ∧ qa ≤ 180 ∧ -90 ≤ qb ∧ qb ≤ 90 := by
  constructor
  · intro h
    unfold validatePoint at h
    cases c with
    | null => simp [pyLen] at h
    | bool b => simp [pyLen] at h
    | num q => simp [pyLen] at h
    | str s =>
      simp only [pyLen] at h
      split at h
      · simp at h
      · rename_i hlen
        obtain ⟨c1, c2, hs⟩ := List.length_eq_two.mp (not_ne_iff.mp hlen)
        simp [pyUnpack2, pyIter, hs, pyPairInRange, pyNumCheck, pyAsNum] at h
    | obj kvs =>
      simp only [pyLen] at h
      split at h
      · simp at h
      · rename_i hlen
        obtain ⟨kv1, kv2, hs⟩ := List.length_eq_two.mp (not_ne_iff.mp hlen)
        simp [pyUnpack2, pyIter, hs, pyPairInRange, pyNumCheck, pyAsNum] at h
    | arr xs =>
      simp only [pyLen] at h
      split at h
      · simp at h
      · rename_i hlen
        obtain ⟨a, b, hs⟩ := List.length_eq_two.mp (not_ne_iff.mp hlen)
        subst hs
        cases ha : pyAsNum a with
        | none => simp [pyUnpack2, pyIter, pyPairInRange, pyNumCheck, ha] at h
        | some qa =>
          simp only [pyUnpack2, pyIter, pyPairInRange, pyNumCheck, ha] at h
          cases hqa : (decide ((-180 : Rat) ≤ qa) && decide (qa ≤ (180 : Rat))) with
          | false => simp [hqa] at h
          | true =>
            simp only [hqa, if_true] at h
            cases hb : pyAsNum b with
            | none => simp [hb] at h
            | some qb =>
              simp only [hb] at h
              cases hqb : (decide ((-90 : Rat) ≤ qb) && decide (qb ≤ (90 : Rat))) with
              | false => simp [hqb] at h
              | true =>
                rw [← Bool.decide_and] at hqa hqb
                obtain ⟨h1, h2⟩ := of_decide_eq_true hqa
                obtain ⟨h3, h4⟩ := of_decide_eq_true hqb
                exact ⟨a, b, qa, qb, rfl, ha, hb, h1, h2, h3, h4⟩
  · rintro ⟨a, b, qa, qb, rfl, ha, hb, h1, h2, h3, h4⟩
    simp [validatePoint, pyLen, pyUnpack2, pyIter, pyPairInRange, pyNumCheck,
      ha, hb, decide_eq_true h1, decide_eq_true h2, decide_eq_true h3, decide_eq_true h4]

/-- Python `==` is reflexive on numeric coordinate pairs. -/
theorem pyEq_numPair_self (a b : Rat) : pyEq (numPair a b) (numPair a b) = true := by
  have h1 : decide (a = a) = true := decide_eq_true rfl
  have h2 : decide (b = b) = true := decide_eq_true rfl
  simp [numPair, pyEq, pyEqList, h1, h2]

/-- C3: the Polygon point-range check of line 62 uses `[-180, 180]` for the
latitude where Point and LineString use `[-90, 90]`: a coordinate pair with
in-range longitude and latitude strictly between 90 and 180 (or between -180
and -90) passes inside a Polygon ring but fails the Point and LineString range
checks. -/
theorem polygon_latitude_bound_anomaly (lon lat : Rat)
    (hlon : -180 ≤ lon ∧ lon ≤ 180)
    (hlat : (90 < lat ∧ lat < 180) ∨ (-180 < lat ∧ lat < -90)) :
    validate_location_format (polygonGeom
        (.arr [.arr [numPair lon lat, numPair lon lat, numPair lon lat, numPair lon lat]])) =
      .ok (true, "Location format is valid.") ∧
    validate_location_format (pointGeom (numPair lon lat)) =
      .ok (false, "Invalid coordinates for 'Point'. Longitude must be in [-180, 180] and latitude in [-90, 90].") ∧
    validate_location_format (lineStringGeom (.arr [numPair lon lat, numPair lon lat])) =
      .ok (false, "Invalid point in LineString. Longitude must be in [-180, 180] and latitude in [-90, 90].") := by
  obtain ⟨hlon1, hlon2⟩ := hlon
  have hlat1 : (-180 : Rat) ≤ lat := by rcases hlat with ⟨h1, h2⟩ | ⟨h1, h2⟩ <;> linarith
  have hlat2 : lat ≤ (180 : Rat) := by rcases hlat with ⟨h1, h2⟩ | ⟨h1, h2⟩ <;> linarith
  have hPointOk : PolyPointOk (numPair lon lat) :=
    ⟨.num lon, .num lat, lon, lat, rfl, rfl, rfl, hlon1, hlon2, hlat1, hlat2⟩
  have hqa : (decide ((-180 : Rat) ≤ lon) && decide (lon ≤ (180 : Rat))) = true := by
    rw [decide_eq_true hlon1, decide_eq_true hlon2]
    rfl
  have hdec : (decide ((-90 : Rat) ≤ lat) && decide (lat ≤ (90 : Rat))) = false := by
    rcases hlat with ⟨h1, h2⟩ | ⟨h1, h2⟩
    · have hf : decide (lat ≤ (90 : Rat)) = false := decide_eq_false (by linarith)
      rw [hf, Bool.and_false]
    · have hf : decide ((-90 : Rat) ≤ lat) = false := decide_eq_false (by linarith)
      rw [hf, Bool.false_and]
  refine ⟨?_, ?_, ?_⟩
  · rw [validate_location_format_polygonGeom, validatePolygon_ok_iff]
    refine ⟨by simp, ?_⟩
    intro r hr
    have hr' : r = .arr [numPair lon lat, numPair lon lat, numPair lon lat, numPair lon lat] := by
      simpa using hr
    rw [hr']
    refine ⟨[numPair lon lat, numPair lon lat, numPair lon lat, numPair lon lat], rfl,
      by simp, ⟨numPair lon lat, numPair lon lat, rfl, rfl, pyEq_numPair_self lon lat⟩, ?_⟩
    intro p hp
    have hp' : p = numPair lon lat := by simpa using hp
    rw [hp']
    exact hPointOk
  · rw [validate_location_format_pointGeom]
    simp [validatePoint, pyLen, pyUnpack2, pyIter, numPair, pyPairInRange, pyNumCheck,
      pyAsNum, hqa, hdec]
  · rw [validate_location_format_lineStringGeom]
    simp [validateLineString, pyLen, pyIter, checkLineStringPoints, lineStringPointStep,
      pyUnpack2, numPair, pyPairInRange, pyNumCheck, pyAsNum, hqa, hdec]

/-- Witness for C3: longitude 0, latitude 100 passes the Polygon ring check
and fails the Point check. -/
theorem polygon_latitude_bound_anomaly_witness :
    validate_location_format (polygonGeom
        (.arr [.arr [numPair 0 100, numPair 0 100, numPair 0 100, numPair 0 100]])) =
      .ok (true, "Location format is valid.") ∧
    validate_location_format (pointGeom (numPair 0 100)) =
      .ok (false, "Invalid coordinates for 'Point'. Longitude must be in [-180, 180] and latitude in [-90, 90].") := by
  have h := polygon_latitude_bound_anomaly 0 100 ⟨by norm_num, by norm_num⟩
    (Or.inl ⟨by norm_num, by norm_num⟩)
  exact ⟨h.1, h.2.1⟩

/-- C4 (amended): Point validation succeeds iff `coordinates` is a sequence of
exactly 2 numeric values — JSON numbers or, as in Python where `bool` is an
`int` subtype, booleans counting as 1/0 — with longitude in `[-180, 180]` and
latitude in `[-90, 90]`; a wrong length yields the length-violation message, an
out-of-range numeric pair yields the range-violation message, `[200, 10]` is
rejected for range and `[10, 20]` accepted. -/
theorem point_validation_characterization :
    (∀ c : Json,
        validate_location_format (pointGeom c) = .ok (true, "Location format is valid.") ↔
          ∃ a b qa qb, c = .arr [a, b] ∧ pyAsNum a = some qa ∧ pyAsNum b = some qb ∧
            -180 ≤ qa ∧ qa ≤ 180 ∧ -90 ≤ qb ∧ qb ≤ 90) ∧
    (∀ xs : List Json, xs.length ≠ 2 →
        validate_location_format (pointGeom (.arr xs)) =
          .ok (false, "Point coordinates must contain exactly two elements (longitude, latitude).")) ∧
    (∀ (a b : Json) (qa qb : Rat), pyAsNum a = some qa → pyAsNum b = some qb →
        ¬(-180 ≤ qa ∧ qa ≤ 180 ∧ -90 ≤ qb ∧ qb ≤ 90) →
        validate_location_format (pointGeom (.arr [a, b])) =
          .ok (false, "Invalid coordinates for 'Point'. Longitude must be in [-180, 180] and latitude in [-90, 90].")) ∧
    validate_location_format (pointGeom (.arr [.num 200, .num 10])) =
      .ok (false, "Invalid coordinates for 'Point'. Longitude must be in [-180, 180] and latitude in [-90, 90].") ∧
    validate_location_format (pointGeom (.arr [.num 10, .num 20])) =
      .ok (true, "Location format is valid.") := by
  refine ⟨?_, ?_, ?_, rfl, rfl⟩
  · intro c
    rw [validate_location_format_pointGeom]
    exact validatePoint_ok_iff c
  · intro xs hx
    rw [validate_location_format_pointGeom]
    simp [validatePoint, pyLen, hx]
  · intro a b qa qb ha hb hn
    rw [validate_location_format_pointGeom]
    cases hqa : (decide ((-180 : Rat) ≤ qa) && decide (qa ≤ (180 : Rat))) with
    | false =>
      simp [validatePoint, pyLen, pyUnpack2, pyIter, pyPairInRange, pyNumCheck, ha, hb, hqa]
    | true =>
      have hqa2 : decide (((-180 : Rat) ≤ qa) ∧ qa ≤ 180) = true := by
        rw [Bool.decide_and]
        exact hqa
      obtain ⟨h1, h2⟩ := of_decide_eq_true hqa2
      have hqb : (decide ((-90 : Rat) ≤ qb) && decide (qb ≤ (90 : Rat))) = false := by
        rw [← Bool.decide_and]
        exact decide_eq_false (fun hc => hn ⟨h1, h2, hc.1, hc.2⟩)
      simp [validatePoint, pyLen, pyUnpack2, pyIter, pyPairInRange, pyNumCheck,
        ha, hb, hqa, hqb]

/-- Witness for C4: the empty coordinate list gets the length message, and
`[10, 20]` is accepted through the characterization. -/
theorem point_validation_characterization_witness :
    validate_location_format (pointGeom (.arr [])) =
      .ok (false, "Point coordinates must contain exactly two elements (longitude, latitude).") ∧
    validate_location_format (pointGeom (.arr [.num 10, .num 20])) =
      .ok (true, "Location format is valid.") :=
  ⟨point_validation_characterization.2.1 [] (by decide),
   (point_validation_characterization.1 (.arr [.num 10, .num 20])).mpr
     ⟨.num 10, .num 20, 10, 20, rfl, rfl, rfl, by norm_num, by norm_num, by norm_num,
       by norm_num⟩⟩

/-- Counterexample to C4 as stated: `{"type": "Point", "coordinates":
[true, true]}` is accepted although its coordinates are not numbers — Python's
`True` is compared as the integer 1, so the range check passes. -/
theorem point_validation_bool_counterexample :
    validate_location_format (pointGeom (.arr [.bool true, .bool true])) =
      .ok (true, "Location format is valid.") ∧
    isNum (.bool true) = false :=
  ⟨rfl, rfl⟩

/-- C5: Polygon validation succeeds iff `coordinates` is a non-empty sequence
of rings, each an array of at least 4 points with first and last point exactly
`==`-equal (no epsilon) and every point an in-range pair; rings are checked in
order with the first violation winning; the non-closed example ring fails with
the closure message and the closed one is accepted. -/
theorem polygon_validation_characterization :
    (∀ rings : List Json,
        validate_location_format (polygonGeom (.arr rings)) =
            .ok (true, "Location format is valid.") ↔
          rings ≠ [] ∧ ∀ r ∈ rings, PolyRingOk r) ∧
    validate_location_format (polygonGeom (.arr [])) =
      .ok (false, "Polygon must have at least one linear ring (an array of arrays of coordinates).") ∧
    (∀ (r : Json) (rest : List Json) (v : Bool × String),
        checkPolygonRings [r] = .ok (some v) →
        checkPolygonRings (r :: rest) = .ok (some v)) ∧
    validate_location_format (polygonGeom
        (.arr [.arr [numPair 0 0, numPair 0 1, numPair 1 1, numPair 1 0]])) =
      .ok (false, "The first and last point in each linear ring must be the same to close the Polygon.") ∧
    validate_location_format (polygonGeom
        (.arr [.arr [numPair 0 0, numPair 0 1, numPair 1 1, numPair 1 0, numPair 0 0]])) =
      .ok (true, "Location format is valid.") := by
  refine ⟨?_, rfl, ?_, rfl, rfl⟩
  · intro rings
    rw [validate_location_format_polygonGeom]
    exact validatePolygon_ok_iff rings
  · intro r rest v h
    simp only [checkPolygonRings] at h ⊢
    cases hs : polygonRingStep r with
    | error e => simp [hs] at h
    | ok o =>
      cases o with
      | some w =>
        simp only [hs] at h ⊢
        exact h
      | none => simp [hs] at h

/-- Witness for C5: a first ring with fewer than four points determines the
verdict no matter what follows it. -/
theorem polygon_validation_characterization_witness :
    checkPolygonRings [Json.arr [], Json.arr [numPair 0 0]] =
      .ok (some (false, "Each linear ring in Polygon must have at least four points (coordinate pairs).")) :=
  polygon_validation_characterization.2.2.1 (Json.arr []) [Json.arr [numPair 0 0]]
    (false, "Each linear ring in Polygon must have at least four points (coordinate pairs).") rfl

/-- C6 (amended): `validate_context_format` succeeds iff its input is a
non-empty list whose first element is a string starting with the expected
prefix; a first string element without the prefix yields the fixed message
"Invalid @context URL." (which does not name the offending URL); elements
after the first are never inspected; a non-list input fails with the
non-empty-list message. -/
theorem context_validation_characterization :
    (∀ c : Json,
        validate_context_format c = .ok (true, "Context format is valid.") ↔
          ∃ u rest, c = .arr (.str u :: rest) ∧ strStartsWith u expectedUrlStart = true) ∧
    (∀ (u : String) (rest : List Json), strStartsWith u expectedUrlStart = false →
        validate_context_format (.arr (.str u :: rest)) =
          .ok (false, "Invalid @context URL.")) ∧
    (∀ (x : Json) (rest rest2 : List Json),
        validate_context_format (.arr (x :: rest)) =
          validate_context_format (.arr (x :: rest2))) ∧
    (∀ c : Json, isList c = false →
        validate_context_format c =
          .ok (false, "The '@context' attribute should be a non-empty list")) := by
  refine ⟨?_, ?_, ?_, ?_⟩
  · intro c
    cases c with
    | null => simp [validate_context_format]
    | bool b => simp [validate_context_format]
    | num q => simp [validate_context_format]
    | str s => simp [validate_context_format]
    | obj kvs => simp [validate_context_format]
    | arr xs =>
      cases xs with
      | nil => simp [validate_context_format]
      | cons x rest =>
        cases x with
        | str u =>
          cases hs : strStartsWith u expectedUrlStart with
          | true =>
            exact iff_of_true (by simp [validate_context_format, hs]) ⟨u, rest, rfl, hs⟩
          | false =>
            refine iff_of_false (by simp [validate_context_format, hs]) ?_
            rintro ⟨u2, rest2, he, hp⟩
            simp only [Json.arr.injEq, List.cons.injEq, Json.str.injEq] at he
            obtain ⟨h1, -⟩ := he
            rw [← h1] at hp
            rw [hs] at hp
            cases hp
        | null => simp [validate_context_format]
        | bool b => simp [validate_context_format]
        | num q => simp [validate_context_format]
        | arr ys => simp [validate_context_format]
        | obj kvs => simp [validate_context_format]
  · intro u rest hs
    simp [validate_context_format, hs]
  · intro x rest rest2
    cases x <;> rfl
  · intro c hc
    cases c with
    | arr xs => simp [isList] at hc
    | null => rfl
    | bool b => rfl
    | num q => rfl
    | str s => rfl
    | obj kvs => rfl

/-- Witness for C6: a non-prefix first element yields the fixed invalid-URL
message even with further elements present. -/
theorem context_validation_characterization_witness :
    validate_context_format (.arr [.str "http://other.org/x", .num 5]) =
      .ok (false, "Invalid @context URL.") :=
  context_validation_characterization.2.1 "http://other.org/x" [.num 5] rfl

/-- Counterexample to C6 as stated: for the invalid URL "http://other.org/x"
the failure message is the fixed string "Invalid @context URL.", which does
not contain (name) the URL. -/
theorem context_url_not_named_counterexample :
    validate_context_format (.arr [.str "http://other.org/x"]) =
      .ok (false, "Invalid @context URL.") ∧
    strContainsSub "Invalid @context URL." "http://other.org/x" = false :=
  ⟨rfl, rfl⟩
